import Mathlib

/-!
Verification of the `pretty_logger` crate (`src/lib.rs`): a shallow
embedding of the logger's data model and operations, followed by theorems
about its filtering, width tracking, rendering, theming and the
initialization API.

Modelling conventions:
  * Machine integers (`usize` width counters) are `Nat`.
  * The two `AtomicUsize` counters are plain fields; the source's
    compare-and-swap retry loop, run without interference, always succeeds
    on its first iteration, which gives the `max old width` result embedded
    here.
  * `log` returns the would-be written line as an `Option String` instead
    of performing IO (`None` = nothing written); write errors are discarded
    by the source (`let _ = ...`), so the line itself is the observable.
  * Rust's `{:.*}` string formatting takes a precision argument: it
    truncates the text to at most that many characters and has no minimum
    field width.  This is embedded as `truncChars`.
  * The external grapheme counter (`unicode_segmentation`) is a parameter
    `gcount : String → Nat` of `log`; a small concrete model
    `graphemeCount` is provided for evaluation at concrete inputs.
  * The external logging facade's global registration and the OS TTY probe
    are modelled from the spec (see the doc comments on `set_boxed_logger`
    and on the `tty` parameters).
-/

namespace PrettyLogger

/-- The five record severities of the `log` crate, `Error` most severe. -/
inductive Level where
  | error
  | warn
  | info
  | debug
  | trace
deriving DecidableEq

/-- The numeric value of a `Level` in the `log` crate (`Error = 1` up to
`Trace = 5`); the crate's derived order compares these numbers. -/
def Level.num : Level → Nat
  | .error => 1
  | .warn => 2
  | .info => 3
  | .debug => 4
  | .trace => 5

/-- The `log` crate's `LevelFilter`: the five levels plus `Off`. -/
inductive LevelFilter where
  | off
  | error
  | warn
  | info
  | debug
  | trace
deriving DecidableEq

/-- `LevelFilter::to_level`: `Off` has no corresponding `Level`. -/
def LevelFilter.toLevel : LevelFilter → Option Level
  | .off => none
  | .error => some .error
  | .warn => some .warn
  | .info => some .info
  | .debug => some .debug
  | .trace => some .trace

/-- `Destination`: where to log errors to. -/
inductive Destination where
  | stdout
  | stderr
deriving DecidableEq

/-- `impl Default for Destination`: `Stderr`. -/
def Destination.default : Destination := .stderr

/-- The ANSI colours this crate uses (subset of `ansi_term::Colour`). -/
inductive Colour where
  | red
  | yellow
  | cyan
  | white
deriving DecidableEq

/-- The ANSI foreground code of a colour, from `ansi_term`. -/
def Colour.fgCode : Colour → String
  | .red => "31"
  | .yellow => "33"
  | .cyan => "36"
  | .white => "37"

/-- Modelled from the spec: the consumed colour capability
(`ansi_term::Style`), restricted to the attributes this crate uses
(foreground colour, bold, dimmed).  "a styling primitive that wraps text
with ANSI escape codes ... or passes text through unchanged for no
style". -/
structure Style where
  foreground : Option Colour
  is_bold : Bool
  is_dimmed : Bool
deriving DecidableEq

/-- `Style::new()`: no styling at all. -/
def Style.new : Style := { foreground := none, is_bold := false, is_dimmed := false }

/-- A style with no attributes set renders text unchanged. -/
def Style.is_plain (s : Style) : Bool := decide (s = Style.new)

/-- The code list of the ANSI prefix, in `ansi_term`'s emission order:
bold, dimmed, then the foreground colour. -/
def Style.codeList (s : Style) : List String :=
  (if s.is_bold then ["1"] else []) ++
  (if s.is_dimmed then ["2"] else []) ++
  (match s.foreground with
   | some c => [c.fgCode]
   | none => [])

/-- Modelled from the spec: painting text with a style.  A plain style
passes the text through unchanged; any other style wraps it in the ANSI
escape sequence built from `codeList` and the reset suffix. -/
def Style.paint (s : Style) (t : String) : String :=
  if s.is_plain then t
  else "\x1b[" ++ String.intercalate ";" s.codeList ++ "m" ++ t ++ "\x1b[0m"

/-- `Colour::bold`: the colour as foreground, with bold set. -/
def Colour.bold (c : Colour) : Style :=
  { foreground := some c, is_bold := true, is_dimmed := false }

/-- `Colour::normal`: the colour as foreground, no attributes. -/
def Colour.normal (c : Colour) : Style :=
  { foreground := some c, is_bold := false, is_dimmed := false }

/-- `Colour::dimmed`: the colour as foreground, with dimmed set. -/
def Colour.dimmed (c : Colour) : Style :=
  { foreground := some c, is_bold := false, is_dimmed := true }

/-- `Theme`: one style per severity plus one for the module name. -/
structure Theme where
  error : Style
  warn : Style
  info : Style
  debug : Style
  trace : Style
  module : Style
deriving DecidableEq

/-- `Theme::empty`: a theme that does not highlight anything. -/
def Theme.empty : Theme :=
  { error := Style.new, warn := Style.new, info := Style.new,
    debug := Style.new, trace := Style.new, module := Style.new }

/-- `impl Default for Theme`: bold red error, bold yellow warn, cyan info,
white debug, dimmed white trace, unstyled module name. -/
def Theme.default : Theme :=
  { error := Colour.red.bold, warn := Colour.yellow.bold,
    info := Colour.cyan.normal, debug := Colour.white.normal,
    trace := Colour.white.dimmed, module := Style.new }

/-- `Theme::paint_log_level`: pick the style and the 5-character label for
a level, then paint the label with the style. -/
def Theme.paint_log_level (th : Theme) (lv : Level) : String :=
  let p : Style × String :=
    match lv with
    | .error => (th.error, "ERROR")
    | .warn => (th.warn, "WARN ")
    | .info => (th.info, "INFO ")
    | .debug => (th.debug, "DEBUG")
    | .trace => (th.trace, "TRACE")
  p.1.paint p.2

/-- The `Logger` struct: destination, severity threshold, the two width
counters (`AtomicUsize` in the source, `Nat` here) and the theme. -/
structure Logger where
  destination : Destination
  level : LevelFilter
  max_module_width : Nat
  max_target_width : Nat
  theme : Theme

/-- `Logger::new`: both width counters start at 0. -/
def Logger.new (destination : Destination) (level : LevelFilter) (theme : Theme) : Logger :=
  { destination, level, max_module_width := 0, max_target_width := 0, theme }

/-- `Logger::update_module_width`: the compare-and-swap retry loop; run
sequentially the swap succeeds at once, storing and returning
`max old width`. -/
def Logger.update_module_width (l : Logger) (width : Nat) : Logger × Nat :=
  let new := max l.max_module_width width
  ({ l with max_module_width := new }, new)

/-- `Logger::update_target_width`: same retry loop on the target counter. -/
def Logger.update_target_width (l : Logger) (width : Nat) : Logger × Nat :=
  let new := max l.max_target_width width
  ({ l with max_target_width := new }, new)

/-- `impl Default for Logger`: destination `Stderr`, level `Info`, default
theme when the destination is a TTY and the empty theme otherwise.  The OS
TTY probe (`Destination::isatty`, external) is the parameter `tty`. -/
def Logger.default (tty : Destination → Bool) : Logger :=
  let destination := Destination.default
  let theme := if tty destination then Theme.default else Theme.empty
  Logger.new destination .info theme

/-- A log record as consumed from the facade: severity, optional module
path, target and the formatted message. -/
structure Record where
  level : Level
  module_path : Option String
  target : String
  args : String

/-- `Log::enabled for Logger`:
`self.level.to_level().map(|level| metadata.level() <= level).unwrap_or(false)`,
comparing the crate's numeric level values. -/
def Logger.enabled (l : Logger) (recordLevel : Level) : Bool :=
  (l.level.toLevel.map fun lv => decide (recordLevel.num ≤ lv.num)).getD false

/-- Rust's `{:.p}` string formatting with precision `p` and no width:
print at most the first `p` characters, with no padding. -/
def truncChars (p : Nat) (s : String) : String := String.mk (s.data.take p)

/-- `Log::log for Logger`: return early when not enabled; otherwise take
the module path (or `"<unknown>"`), feed its grapheme count to the module
width tracker, and write either the 3-field line (target equal to module)
or the 4-field line (target different, its grapheme count fed to the
target width tracker).  Each text field is formatted with `{:.*}`, i.e.
`truncChars` at the tracker's returned value.  The grapheme counter of the
`unicode_segmentation` crate is the parameter `gcount`. -/
def Logger.log (gcount : String → Nat) (l : Logger) (r : Record) : Logger × Option String :=
  if l.enabled r.level = false then (l, none)
  else
    let module := r.module_path.getD "<unknown>"
    let target := r.target
    let res := l.update_module_width (gcount module)
    let module_length := res.2
    if module = target then
      (res.1, some (l.theme.paint_log_level r.level ++ "|" ++
        truncChars module_length module ++ "|" ++ r.args ++ "\n"))
    else
      let res2 := res.1.update_target_width (gcount target)
      (res2.1, some (l.theme.paint_log_level r.level ++ "|" ++
        truncChars module_length module ++ "|" ++
        truncChars res2.2 target ++ "|" ++ r.args ++ "\n"))

/-- The facade's registration error (`log::SetLoggerError`); the spec
calls it AlreadyInitialized. -/
inductive SetLoggerError where
  | alreadySet
deriving DecidableEq

/-- Modelled from the spec: `log::set_boxed_logger`, the facade's
process-wide set-once registration — "Registration is a process-wide,
set-once action; a second registration attempt must fail with a
distinguishable error rather than silently replacing the first logger."
The installed-logger cell is threaded explicitly. -/
def set_boxed_logger (installed : Option Logger) (l : Logger) :
    Option Logger × Except SetLoggerError Unit :=
  match installed with
  | none => (some l, .ok ())
  | some g => (some g, .error .alreadySet)

/-- `Logger::set_logger`: delegate to the facade's registration. -/
def Logger.set_logger (l : Logger) (installed : Option Logger) :
    Option Logger × Except SetLoggerError Unit :=
  set_boxed_logger installed l

/-- `platform_init` on non-Windows: a no-op. -/
def platform_init : Unit := ()

/-- `init`: full control; constructs and installs. -/
def init (destination : Destination) (level : LevelFilter) (theme : Theme)
    (installed : Option Logger) : Option Logger × Except SetLoggerError Unit :=
  (Logger.new destination level theme).set_logger installed

/-- `init_level`: the default logger with its level overridden. -/
def init_level (tty : Destination → Bool) (level : LevelFilter)
    (installed : Option Logger) : Option Logger × Except SetLoggerError Unit :=
  let logger := Logger.default tty
  ({ logger with level := level }).set_logger installed

/-- `init_to_defaults`: installs the default logger. -/
def init_to_defaults (tty : Destination → Bool) (installed : Option Logger) :
    Option Logger × Except SetLoggerError Unit :=
  (Logger.default tty).set_logger installed

/-- One call to any of the three init entry points. -/
inductive InitCall where
  | full (destination : Destination) (level : LevelFilter) (theme : Theme)
  | atLevel (level : LevelFilter)
  | toDefaults

/-- Run one init call against the installed-logger cell. -/
def runInit (tty : Destination → Bool) :
    InitCall → Option Logger → Option Logger × Except SetLoggerError Unit
  | .full d lv th, gs => init d lv th gs
  | .atLevel lv, gs => init_level tty lv gs
  | .toDefaults, gs => init_to_defaults tty gs

/-- Spec-side severity rank, from "the total order
Error > Warn > Info > Debug > Trace (Error most severe)": larger is more
severe. -/
def Level.severity : Level → Nat
  | .error => 5
  | .warn => 4
  | .info => 3
  | .debug => 2
  | .trace => 1

/-- Spec-side `enabled`, following the spec's words: "true iff the
configured minimum-severity threshold is not off and `record_level` is at
least as severe as the threshold"; "A threshold of off disables all
records." -/
def specEnabled (threshold : LevelFilter) (recordLevel : Level) : Bool :=
  match threshold.toLevel with
  | none => false
  | some t => decide (t.severity ≤ recordLevel.severity)

/-- Modelled from the spec: the consumed grapheme counter
(`unicode_segmentation`), "counts user-perceived characters in a text span
per Unicode text-segmentation rules (not bytes, not code points)".
Simplified to the clusters exercised here: combining marks U+0300–U+036F,
the zero-width joiner U+200D (which also glues the following character to
the current cluster) and variation selector U+FE0F extend the previous
cluster; every other character starts a new one. -/
def graphemeCount (s : String) : Nat :=
  (s.data.foldl
    (fun (acc : Nat × Bool) c =>
      let extends_prev :=
        (decide (0x300 ≤ c.toNat) && decide (c.toNat ≤ 0x36F)) ||
        decide (c.toNat = 0x200D) || decide (c.toNat = 0xFE0F) || acc.2
      ((if extends_prev then acc.1 else acc.1 + 1), decide (c.toNat = 0x200D)))
    (0, false)).1

/-- The 5-character space-padded label of a level, as the spec lists
them. -/
def levelLabel : Level → String
  | .error => "ERROR"
  | .warn => "WARN "
  | .info => "INFO "
  | .debug => "DEBUG"
  | .trace => "TRACE"

/-- Whether a string contains the ANSI escape character. -/
def hasEsc (s : String) : Bool := s.data.any fun c => c.toNat = 0x1B

/-- Folding module-width updates over a list of observed widths. -/
def runModuleUpdates (l : Logger) (ws : List Nat) : Logger :=
  ws.foldl (fun st w => (st.update_module_width w).1) l

/-- Folding target-width updates over a list of observed widths. -/
def runTargetUpdates (l : Logger) (ws : List Nat) : Logger :=
  ws.foldl (fun st w => (st.update_target_width w).1) l

/-! Helper lemmas. -/

theorem truncChars_of_le (p : Nat) (s : String) (h : s.length ≤ p) :
    truncChars p s = s := by
  cases s with
  | mk data => exact congrArg String.mk (List.take_of_length_le h)

theorem hasEsc_append (a b : String) : hasEsc (a ++ b) = (hasEsc a || hasEsc b) := by
  cases a with
  | mk da =>
  cases b with
  | mk db =>
  have hab : ((⟨da⟩ : String) ++ (⟨db⟩ : String)) = (⟨da ++ db⟩ : String) := rfl
  rw [hab]
  simp [hasEsc, List.any_append]

theorem hasEsc_truncChars (p : Nat) (s : String) (h : hasEsc s = false) :
    hasEsc (truncChars p s) = false := by
  cases s with
  | mk data =>
  simp only [hasEsc, truncChars, List.any_eq_false] at h ⊢
  intro c hc
  exact h c (List.take_subset _ _ hc)

theorem paint_log_level_empty (lv : Level) :
    Theme.empty.paint_log_level lv = levelLabel lv := by
  cases lv <;> rfl

theorem hasEsc_levelLabel (lv : Level) : hasEsc (levelLabel lv) = false := by
  cases lv <;> rfl

theorem le_foldl_max (ws : List Nat) : ∀ a : Nat, a ≤ ws.foldl max a := by
  induction ws with
  | nil => intro a; exact Nat.le_refl a
  | cons w ws ih => intro a; exact Nat.le_trans (Nat.le_max_left a w) (ih (max a w))

theorem mem_le_foldl_max (ws : List Nat) : ∀ a w : Nat, w ∈ ws → w ≤ ws.foldl max a := by
  induction ws with
  | nil => intro a w h; cases h
  | cons x ws ih =>
    intro a w h
    rcases List.mem_cons.mp h with h | h
    · subst h; exact Nat.le_trans (Nat.le_max_right a w) (le_foldl_max ws (max a w))
    · exact ih (max a x) w h

theorem runModuleUpdates_width (ws : List Nat) : ∀ l : Logger,
    (runModuleUpdates l ws).max_module_width = ws.foldl max l.max_module_width := by
  induction ws with
  | nil => intro l; rfl
  | cons w ws ih => intro l; exact ih _

theorem runTargetUpdates_width (ws : List Nat) : ∀ l : Logger,
    (runTargetUpdates l ws).max_target_width = ws.foldl max l.max_target_width := by
  induction ws with
  | nil => intro l; rfl
  | cons w ws ih => intro l; exact ih _

/-- Evaluation of `log` on an enabled record: the module counter is raised
to the module's grapheme count, and the line is the 3-field or 4-field
format depending on whether the module equals the target, every text field
going through the `{:.*}` precision formatter. -/
theorem log_eval (gcount : String → Nat) (l : Logger) (r : Record)
    (he : l.enabled r.level = true) :
    Logger.log gcount l r =
      if r.module_path.getD "<unknown>" = r.target then
        ({ l with max_module_width := (max l.max_module_width
            (gcount (r.module_path.getD "<unknown>"))) },
         some (l.theme.paint_log_level r.level ++ "|" ++
           truncChars (max l.max_module_width (gcount (r.module_path.getD "<unknown>")))
             (r.module_path.getD "<unknown>") ++ "|" ++ r.args ++ "\n"))
      else
        ({ l with
            max_module_width := (max l.max_module_width
              (gcount (r.module_path.getD "<unknown>"))),
            max_target_width := (max l.max_target_width (gcount r.target)) },
         some (l.theme.paint_log_level r.level ++ "|" ++
           truncChars (max l.max_module_width (gcount (r.module_path.getD "<unknown>")))
             (r.module_path.getD "<unknown>") ++ "|" ++
           truncChars (max l.max_target_width (gcount r.target)) r.target ++ "|" ++
           r.args ++ "\n")) := by
  simp only [Logger.log, he]
  rw [if_neg (by decide : ¬((true : Bool) = false))]
  split <;> rfl

/-! Claim theorems. -/

/-- C1: `enabled` returns true iff the threshold is not "off" and the
record's severity is at least as severe as the threshold under
Error > Warn > Info > Debug > Trace; an "off" threshold yields false for
all five severities.  Stated as agreement with the spec-side
`specEnabled`, plus the explicit "off" case. -/
theorem enabled_iff_at_least_as_severe :
    (∀ (l : Logger) (lv : Level), l.enabled lv = specEnabled l.level lv) ∧
    (∀ (d : Destination) (m t : Nat) (th : Theme) (lv : Level),
      Logger.enabled { destination := d, level := .off, max_module_width := m,
                       max_target_width := t, theme := th } lv = false) := by
  constructor
  · intro l lv
    obtain ⟨d, f, m, t, th⟩ := l
    cases f <;> cases lv <;> rfl
  · intro d m t th lv
    rfl

/-- C2: a record for which `enabled` is false makes `log` return
immediately: no output line and both width counters (indeed the whole
logger state) unchanged. -/
theorem log_disabled_noop (gcount : String → Nat) (l : Logger) (r : Record)
    (h : l.enabled r.level = false) : Logger.log gcount l r = (l, none) := by
  simp [Logger.log, h]

/-- Witness for C2: a Trace record under an Info threshold is dropped with
the logger state untouched. -/
theorem log_disabled_noop_w :
    Logger.log graphemeCount (Logger.new Destination.stderr LevelFilter.info Theme.empty)
        { level := Level.trace, module_path := some "crate::foo",
          target := "crate::foo", args := "hi" } =
      (Logger.new Destination.stderr LevelFilter.info Theme.empty, none) :=
  log_disabled_noop graphemeCount
    (Logger.new Destination.stderr LevelFilter.info Theme.empty)
    { level := Level.trace, module_path := some "crate::foo",
      target := "crate::foo", args := "hi" } (by decide)

/-- C3 counterexample: the source formats each text field with `{:.*}`, a
precision-only specifier, so the printed field is truncated to at most the
tracked width in characters and is never padded.  First input: a fresh
logger and the module "e" followed by U+0301 (one grapheme, two
characters); the code prints the truncated "e", not the full module text.
Second input: a logger whose module counter already reached 10 and the
module "ab"; the code prints "ab" with no padding to the tracked width
10. -/
theorem log_truncates_and_never_pads :
    (Logger.log graphemeCount (Logger.new Destination.stderr LevelFilter.info Theme.empty)
        { level := Level.error, module_path := some "e\u0301",
          target := "e\u0301", args := "hi" }).2 = some "ERROR|e|hi\n" ∧
    "ERROR|e|hi\n" ≠ "ERROR|e\u0301|hi\n" ∧
    (Logger.log graphemeCount
        { destination := .stderr, level := .info, max_module_width := 10,
          max_target_width := 0, theme := Theme.empty }
        { level := Level.error, module_path := some "ab",
          target := "ab", args := "hi" }).2 = some "ERROR|ab|hi\n" ∧
    "ERROR|ab|hi\n" ≠ "ERROR|ab        |hi\n" :=
  ⟨rfl, by decide, rfl, by decide⟩

/-- C4: on an accepted record whose module and target grapheme counts
agree with their character counts (so the precision field does not cut
them), `log` writes the 3-field line `LEVEL|module|message\n` when the
target equals the module path and the 4-field line
`LEVEL|module|target|message\n` otherwise. -/
theorem log_format_selection (gcount : String → Nat) (l : Logger) (r : Record)
    (he : l.enabled r.level = true)
    (hm : gcount (r.module_path.getD "<unknown>") = (r.module_path.getD "<unknown>").length)
    (ht : gcount r.target = r.target.length) :
    (r.module_path.getD "<unknown>" = r.target →
      (Logger.log gcount l r).2 =
        some (l.theme.paint_log_level r.level ++ "|" ++
          r.module_path.getD "<unknown>" ++ "|" ++ r.args ++ "\n")) ∧
    (r.module_path.getD "<unknown>" ≠ r.target →
      (Logger.log gcount l r).2 =
        some (l.theme.paint_log_level r.level ++ "|" ++
          r.module_path.getD "<unknown>" ++ "|" ++ r.target ++ "|" ++ r.args ++ "\n")) := by
  have hmod : truncChars (max l.max_module_width (gcount (r.module_path.getD "<unknown>")))
      (r.module_path.getD "<unknown>") = r.module_path.getD "<unknown>" :=
    truncChars_of_le _ _ (by rw [← hm]; exact Nat.le_max_right _ _)
  rw [log_eval gcount l r he]
  constructor
  · intro heq
    rw [if_pos heq, hmod]
  · intro hne
    have htar : truncChars (max l.max_target_width (gcount r.target)) r.target = r.target :=
      truncChars_of_le _ _ (by rw [← ht]; exact Nat.le_max_right _ _)
    rw [if_neg hne, hmod, htar]

/-- Witness for C4: the spec's two concrete examples, with the empty theme
and a fresh logger. -/
theorem log_format_selection_w :
    (Logger.log graphemeCount (Logger.new Destination.stderr LevelFilter.info Theme.empty)
        { level := Level.error, module_path := some "crate::foo",
          target := "crate::foo", args := "hi" }).2 = some "ERROR|crate::foo|hi\n" ∧
    (Logger.log graphemeCount (Logger.new Destination.stderr LevelFilter.info Theme.empty)
        { level := Level.error, module_path := some "crate::foo",
          target := "crate::bar", args := "hi" }).2 =
      some "ERROR|crate::foo|crate::bar|hi\n" := by
  constructor
  · have h := (log_format_selection graphemeCount
      (Logger.new Destination.stderr LevelFilter.info Theme.empty)
      { level := Level.error, module_path := some "crate::foo",
        target := "crate::foo", args := "hi" }
      (by decide) (by decide) (by decide)).1 rfl
    exact h.trans (by decide)
  · have h := (log_format_selection graphemeCount
      (Logger.new Destination.stderr LevelFilter.info Theme.empty)
      { level := Level.error, module_path := some "crate::foo",
        target := "crate::bar", args := "hi" }
      (by decide) (by decide) (by decide)).2 (by decide)
    exact h.trans (by decide)

/-- C4 at the failing input: on the module "e" followed by U+0301 (equal
to the target) the code's 3-field line carries the truncated module field
"e", not the full module text, so the line is not
`LEVEL|module|message`. -/
theorem log_format_at_failing_input :
    (Logger.log graphemeCount (Logger.new Destination.stderr LevelFilter.info Theme.empty)
        { level := Level.error, module_path := some "e\u0301",
          target := "e\u0301", args := "hi" }).2 = some "ERROR|e|hi\n" ∧
    (Logger.log graphemeCount (Logger.new Destination.stderr LevelFilter.info Theme.empty)
        { level := Level.error, module_path := some "e\u0301",
          target := "e\u0301", args := "hi" }).2 ≠
      some (Theme.empty.paint_log_level Level.error ++ "|" ++ "e\u0301" ++ "|" ++ "hi" ++ "\n") :=
  ⟨rfl, by decide⟩

/-- C5: each width-tracker update stores and returns
`max current candidate` and never decreases the counter; folding any
sequence of updates leaves the counter at the running maximum of the
initial value and every candidate ever observed, so no update is lost. -/
theorem width_tracker_running_max :
    (∀ (l : Logger) (w : Nat),
      l.update_module_width w =
        ({ l with max_module_width := max l.max_module_width w }, max l.max_module_width w) ∧
      l.max_module_width ≤ (l.update_module_width w).2 ∧
      l.update_target_width w =
        ({ l with max_target_width := max l.max_target_width w }, max l.max_target_width w) ∧
      l.max_target_width ≤ (l.update_target_width w).2) ∧
    (∀ (l : Logger) (ws : List Nat),
      (runModuleUpdates l ws).max_module_width = ws.foldl max l.max_module_width ∧
      (runTargetUpdates l ws).max_target_width = ws.foldl max l.max_target_width ∧
      l.max_module_width ≤ (runModuleUpdates l ws).max_module_width ∧
      (∀ w, w ∈ ws → w ≤ (runModuleUpdates l ws).max_module_width)) := by
  constructor
  · intro l w
    exact ⟨rfl, Nat.le_max_left _ _, rfl, Nat.le_max_left _ _⟩
  · intro l ws
    refine ⟨runModuleUpdates_width ws l, runTargetUpdates_width ws l, ?_, ?_⟩
    · rw [runModuleUpdates_width]
      exact le_foldl_max ws _
    · intro w hw
      rw [runModuleUpdates_width]
      exact mem_le_foldl_max ws _ w hw

/-- Witness for C5: the spec's sequence 3, 1, 5, 2 from a fresh counter;
the observed candidate 3 is below the final maximum. -/
theorem width_tracker_running_max_w :
    3 ≤ (runModuleUpdates (Logger.new Destination.stderr LevelFilter.info Theme.empty)
      [3, 1, 5, 2]).max_module_width :=
  (width_tracker_running_max.2
    (Logger.new Destination.stderr LevelFilter.info Theme.empty) [3, 1, 5, 2]).2.2.2
    3 (by decide)

/-- C6: on an accepted record the module-width tracker is fed the grapheme
count of the module path, and (when the target differs) the target-width
tracker the grapheme count of the target.  On the concrete module "e"
followed by U+0301 the grapheme count is 1, while the code-point count is
2 and the byte count 3, so one combining sequence counts as one unit. -/
theorem log_width_uses_grapheme_count :
    (∀ (gcount : String → Nat) (l : Logger) (r : Record),
      l.enabled r.level = true →
      ((Logger.log gcount l r).1.max_module_width =
          max l.max_module_width (gcount (r.module_path.getD "<unknown>")) ∧
        (r.module_path.getD "<unknown>" ≠ r.target →
          (Logger.log gcount l r).1.max_target_width =
            max l.max_target_width (gcount r.target)))) ∧
    graphemeCount "e\u0301" = 1 ∧
    ("e\u0301").length = 2 ∧
    ("e\u0301").utf8ByteSize = 3 := by
  refine ⟨?_, by decide, by decide, by decide⟩
  intro gcount l r he
  rw [log_eval gcount l r he]
  by_cases h : r.module_path.getD "<unknown>" = r.target
  · rw [if_pos h]
    exact ⟨rfl, fun hne => absurd h hne⟩
  · rw [if_neg h]
    exact ⟨rfl, fun _ => rfl⟩

/-- Witness for C6: logging the combining-sequence module above on a fresh
logger raises the module counter to its grapheme count. -/
theorem log_width_uses_grapheme_count_w :
    (Logger.log graphemeCount (Logger.new Destination.stderr LevelFilter.info Theme.empty)
        { level := Level.error, module_path := some "e\u0301",
          target := "e\u0301", args := "hi" }).1.max_module_width =
      max 0 (graphemeCount "e\u0301") :=
  (log_width_uses_grapheme_count.1 graphemeCount
    (Logger.new Destination.stderr LevelFilter.info Theme.empty)
    { level := Level.error, module_path := some "e\u0301",
      target := "e\u0301", args := "hi" } (by decide)).1

/-- C7: every init entry point succeeds when no global logger is
installed, and any second init call in sequence fails with the
already-initialized error; an init call errors exactly when a logger was
previously installed, and that error is the only one. -/
theorem init_single_registration :
    (∀ (tty : Destination → Bool) (c₁ c₂ : InitCall),
      (runInit tty c₁ none).2 = Except.ok () ∧
      (runInit tty c₂ (runInit tty c₁ none).1).2 = Except.error SetLoggerError.alreadySet) ∧
    (∀ (tty : Destination → Bool) (c : InitCall) (gs : Option Logger),
      (runInit tty c gs).2 = Except.error SetLoggerError.alreadySet ↔ gs ≠ none) := by
  constructor
  · intro tty c₁ c₂
    cases c₁ <;> cases c₂ <;> exact ⟨rfl, rfl⟩
  · intro tty c gs
    cases gs <;> cases c <;>
      simp [runInit, init, init_level, init_to_defaults, Logger.set_logger, set_boxed_logger]

/-- C8: the rendered level label is the 5-character space-padded string
wrapped in the level's theme style (`paint_log_level` is a total function
of the level by construction); under the empty theme every label is the
bare 5-character string, under the default theme the Error label is
wrapped in the bold-red escape, and a line logged under the empty theme
contains no escape character when the record's own texts contain none. -/
theorem paint_log_level_theming :
    (∀ lv : Level, (levelLabel lv).length = 5) ∧
    (∀ lv : Level, Theme.empty.paint_log_level lv = levelLabel lv) ∧
    Theme.default.paint_log_level Level.error = "\x1b[1;31m" ++ "ERROR" ++ "\x1b[0m" ∧
    (∀ (gcount : String → Nat) (l : Logger) (r : Record) (out : String),
      l.theme = Theme.empty →
      (Logger.log gcount l r).2 = some out →
      hasEsc (r.module_path.getD "<unknown>") = false →
      hasEsc r.target = false →
      hasEsc r.args = false →
      hasEsc out = false) := by
  refine ⟨fun lv => by cases lv <;> rfl, paint_log_level_empty, rfl, ?_⟩
  intro gcount l r out hth hout hm ht ha
  have hpaint : hasEsc (l.theme.paint_log_level r.level) = false := by
    rw [hth, paint_log_level_empty]
    exact hasEsc_levelLabel r.level
  by_cases he : l.enabled r.level = true
  · rw [log_eval gcount l r he] at hout
    by_cases hmt : r.module_path.getD "<unknown>" = r.target
    · rw [if_pos hmt] at hout
      obtain rfl := (Option.some.injEq _ _).mp hout
      simp only [hasEsc_append, hpaint, hasEsc_truncChars _ _ hm, ha,
        Bool.or_self, Bool.or_false, Bool.false_or]
      decide
    · rw [if_neg hmt] at hout
      obtain rfl := (Option.some.injEq _ _).mp hout
      simp only [hasEsc_append, hpaint, hasEsc_truncChars _ _ hm,
        hasEsc_truncChars _ _ ht, ha, Bool.or_self, Bool.or_false, Bool.false_or]
      decide
  · rw [Bool.not_eq_true] at he
    simp [Logger.log, he] at hout

/-- Witness for C8: the empty-theme example line carries no escape
character. -/
theorem paint_log_level_theming_w :
    hasEsc "ERROR|crate::foo|hi\n" = false :=
  paint_log_level_theming.2.2.2 graphemeCount
    (Logger.new Destination.stderr LevelFilter.info Theme.empty)
    { level := Level.error, module_path := some "crate::foo",
      target := "crate::foo", args := "hi" }
    "ERROR|crate::foo|hi\n" rfl (by decide) (by decide) (by decide) (by decide)

/-- C9: `init_to_defaults` installs a logger logging to Stderr at the Info
threshold with the default theme iff Stderr is a TTY (else the empty
theme); `init_level` installs the same defaults with the caller-supplied
threshold instead. -/
theorem init_defaults_fields :
    (∀ tty : Destination → Bool,
      Logger.default tty =
        { destination := Destination.stderr, level := LevelFilter.info,
          max_module_width := 0, max_target_width := 0,
          theme := if tty Destination.stderr then Theme.default else Theme.empty }) ∧
    (∀ tty : Destination → Bool,
      (init_to_defaults tty none).1 = some (Logger.default tty) ∧
      (init_to_defaults tty none).2 = Except.ok ()) ∧
    (∀ (tty : Destination → Bool) (lv : LevelFilter),
      (init_level tty lv none).1 = some { Logger.default tty with level := lv } ∧
      (init_level tty lv none).2 = Except.ok ()) := by
  exact ⟨fun tty => rfl, fun tty => ⟨rfl, rfl⟩, fun tty lv => ⟨rfl, rfl⟩⟩

/-- C10: a record without a module path is logged exactly as if its module
path were the literal `"<unknown>"`: same width updates, same rendered
line, same 3-field/4-field selection against the target. -/
theorem log_unknown_module (gcount : String → Nat) (l : Logger) (r : Record)
    (h : r.module_path = none) :
    Logger.log gcount l r = Logger.log gcount l { r with module_path := some "<unknown>" } := by
  simp [Logger.log, h]

/-- Witness for C10: a module-less record under the Info threshold renders
with the `"<unknown>"` module name. -/
theorem log_unknown_module_w :
    Logger.log graphemeCount (Logger.new Destination.stderr LevelFilter.info Theme.empty)
        { level := Level.error, module_path := none, target := "tgt", args := "hi" } =
      Logger.log graphemeCount (Logger.new Destination.stderr LevelFilter.info Theme.empty)
        { level := Level.error, module_path := some "<unknown>", target := "tgt", args := "hi" } :=
  log_unknown_module graphemeCount
    (Logger.new Destination.stderr LevelFilter.info Theme.empty)
    { level := Level.error, module_path := none, target := "tgt", args := "hi" } rfl

end PrettyLogger
